import Mathlib

/-!
Shallow embedding of the chat client in `chat-frontend/src/App.jsx`
(splitwise-mcp-bot). The React component state becomes an explicit
`ClientState`; each event handler (`handleSubmit`, `handleLogout`,
`handleLogin`, `verifyToken`) becomes a pure transition on that state.
The outcome of the single `fetch` performed by a handler is passed in
explicitly as a `FetchOutcome` / `VerifyOutcome` argument, so that the
handler itself is a total function.  JavaScript truthiness of the
message fields (`if (msg.user)`, `if (msg.server)`) is modelled by
`strTruthy` / `contentTruthy` (the empty string is falsy, arrays are
always truthy).
-/

namespace ChatApp

/-- Value held in a server message: a plain string, a table of rows, or a
list of items (the backend may put any of these in `data.result`). -/
inductive Content where
  | str (s : String)
  | rows (r : List (List String))
  | items (l : List String)
deriving DecidableEq, Repr

/-- One element of the `chatHistory` React state.  User messages are
created as `{ user: input }`; server messages as
`{ server: ..., type: ... }`.  Absent fields are `none`. -/
structure Msg where
  user : Option String := none
  server : Option Content := none
  type : Option String := none
deriving DecidableEq, Repr

/-- One element of the `chat_history` array of the `POST /query` body,
as produced by the `chatHistory.map` in `handleSubmit`: the two
one-field shapes, or the original message passed through unchanged
(the `return msg` fallthrough). -/
inductive CtxMsg where
  | userMsg (s : String)
  | serverMsg (c : Content)
  | passthrough (m : Msg)
deriving DecidableEq, Repr

/-- Body of the `POST /query` request built in `handleSubmit`. -/
structure QueryRequest where
  query : String
  chat_history : List CtxMsg
deriving DecidableEq, Repr

/-- Parsed JSON body of a `POST /query` response:
`{ success: boolean, result?: ..., error?: string }`.  `rtype` models an
extra `type` field a reply could declare; the client never reads it. -/
structure QueryResponse where
  success : Bool
  result : Option Content := none
  error : Option String := none
  rtype : Option String := none
deriving DecidableEq, Repr

/-- Outcome of the `fetch` in `handleSubmit`: the promise rejects
(network exception), or a response arrives with an HTTP status and,
when `res.json()` succeeds, a parsed body (`none` models a body that
fails to parse, which also throws into the catch block). -/
inductive FetchOutcome where
  | networkError
  | response (status : Nat) (body : Option QueryResponse)
deriving DecidableEq, Repr

/-- Outcome of the `fetch` in `verifyToken`: a 2xx response carrying the
user profile, a non-2xx response, or a network exception. -/
inductive VerifyOutcome where
  | ok (userData : String)
  | httpError
  | networkFailure
deriving DecidableEq, Repr

/-- React state of the `App` component, plus the browser-local-storage
slot read and written under the fixed key `token`
(`localStorageToken = none` means the key is absent). -/
structure ClientState where
  chatHistory : List Msg := []
  input : String := ""
  loading : Bool := false
  showContextInfo : Bool := false
  isAuthenticated : Bool := false
  token : Option String := none
  showRegister : Bool := false
  userProfile : Option String := none
  localStorageToken : Option String := none
deriving DecidableEq, Repr

/-- Whitespace characters removed by JavaScript `String.prototype.trim`
(the ASCII ones; Unicode spaces are irrelevant to the claims). -/
def isJsWs (c : Char) : Bool :=
  c = ' ' || c = '\t' || c = '\n' || c = '\r' || c = '\x0b' || c = '\x0c'

/-- Trim a character list on both ends. -/
def trimChars (l : List Char) : List Char :=
  ((l.dropWhile isJsWs).reverse.dropWhile isJsWs).reverse

/-- Model of JavaScript `input.trim()`. -/
def jsTrim (s : String) : String :=
  ⟨trimChars s.data⟩

/-- JavaScript truthiness of an optional string field: `undefined` and
the empty string are falsy. -/
def strTruthy : Option String → Bool
  | none => false
  | some s => s ≠ ""

/-- JavaScript truthiness of `msg.server`: `undefined` and the empty
string are falsy; arrays are always truthy. -/
def contentTruthy : Option Content → Bool
  | none => false
  | some (.str s) => s ≠ ""
  | some (.rows _) => true
  | some (.items _) => true

/-- The arrow function of `chatHistory.map` in `handleSubmit`:
`if (msg.user) return { user: msg.user }; if (msg.server) return
{ server: msg.server }; return msg;`. -/
def mapCtx (m : Msg) : CtxMsg :=
  if strTruthy m.user then .userMsg (m.user.getD "")
  else if contentTruthy m.server then .serverMsg (m.server.getD (.str ""))
  else .passthrough m

/-- Whether a context element has exactly the one-field
`{user: ...}` or `{server: ...}` shape with no `type` field. -/
def ctxOneField : CtxMsg → Bool
  | .userMsg _ => true
  | .serverMsg _ => true
  | .passthrough m => m.type.isNone && (m.user.isSome != m.server.isSome)

/-- `res.ok` of the Fetch API: status in the range 200-299. -/
def resOk (status : Nat) : Bool :=
  200 ≤ status && status < 300

/-- JavaScript `a || b` on an optional string with a default:
`data.error || "Unknown error occurred"`. -/
def jsOr (o : Option String) (d : String) : String :=
  match o with
  | some s => if s = "" then d else s
  | none => d

/-- Text of the message appended by the catch block of `handleSubmit`. -/
def connectionErrorText : String :=
  "Error: Could not connect to server. Please make sure the backend is running on localhost:8000."

/-- Message appended by the catch block of `handleSubmit`. -/
def connectionErrorMsg : Msg :=
  { server := some (.str connectionErrorText),
    type := some "text" }

/-- Message appended on an HTTP 401 response. -/
def sessionExpiredMsg : Msg :=
  { server := some (.str "Your session has expired. Please log in again."),
    type := some "text" }

/-- Guard at the top of `handleSubmit`:
`if (!input.trim() || loading || !token) return;`. -/
def submitBlocked (st : ClientState) : Bool :=
  (jsTrim st.input == "") || st.loading || !strTruthy st.token

/-- The `handleLogout` handler: removes the `token` key from local
storage, clears authentication state, token, user profile, and chat
history. -/
def handleLogout (st : ClientState) : ClientState :=
  { st with localStorageToken := none, isAuthenticated := false,
            token := none, userProfile := none, chatHistory := [] }

/-- The `handleSubmit` handler.  Returns the committed state after the
handler finishes and the `POST /query` request sent, if any.  State
updates follow the source line by line: the optimistic
`setChatHistory(newHistory)` together with `setInput("")` and
`setLoading(true)`, then the branch on the fetch outcome; `finally`
resets `loading` on every path that made a request. -/
def handleSubmit (st : ClientState) (outcome : FetchOutcome) :
    ClientState × Option QueryRequest :=
  if submitBlocked st then (st, none)
  else
    let newHistory := st.chatHistory ++ [{ user := some st.input }]
    let st1 := { st with chatHistory := newHistory, input := "", loading := true }
    let chatContext := st.chatHistory.map mapCtx
    let req : QueryRequest := { query := st.input, chat_history := chatContext }
    match outcome with
    | .networkError =>
        ({ st1 with chatHistory := newHistory ++ [connectionErrorMsg],
                    loading := false }, some req)
    | .response status body =>
        if status = 401 then
          ({ handleLogout st1 with
               chatHistory := newHistory ++ [sessionExpiredMsg],
               loading := false }, some req)
        else if !resOk status then
          ({ st1 with chatHistory := newHistory ++ [connectionErrorMsg],
                      loading := false }, some req)
        else
          match body with
          | none =>
              ({ st1 with chatHistory := newHistory ++ [connectionErrorMsg],
                          loading := false }, some req)
          | some data =>
              if data.success then
                ({ st1 with
                     chatHistory := newHistory ++
                       [{ server := data.result, type := some "markdown" }],
                     loading := false }, some req)
              else
                ({ st1 with
                     chatHistory := newHistory ++
                       [{ server := some (.str ("Error: " ++ jsOr data.error "Unknown error occurred")),
                          type := some "text" }],
                     loading := false }, some req)

/-- The `verifyToken` helper: on a 2xx `/me` response stores the user
profile and confirms authentication; on any failure clears the stored
token and all authentication state. -/
def verifyToken (st : ClientState) (tok : String) : VerifyOutcome → ClientState
  | .ok u =>
      { st with userProfile := some u, isAuthenticated := true, token := some tok }
  | .httpError =>
      { st with localStorageToken := none, isAuthenticated := false,
                token := none, userProfile := none }
  | .networkFailure =>
      { st with localStorageToken := none, isAuthenticated := false,
                token := none, userProfile := none }

/-- The `handleLogin` handler: stores the new token, marks the session
authenticated, hides the register screen, then verifies the token. -/
def handleLogin (st : ClientState) (newToken : String) (vout : VerifyOutcome) :
    ClientState :=
  verifyToken
    { st with token := some newToken, isAuthenticated := true, showRegister := false }
    newToken vout

/-- What `renderMessage` produces for one message.  `nothing` is the
`return null` fallthrough; `crash` models the TypeError thrown when the
code calls `.map` on a value that is not an array. -/
inductive Rendered where
  | nothing
  | userBubble (s : String)
  | tableView (r : List (List String))
  | listView (items : List String)
  | markdownView (c : Content)
  | crash
deriving DecidableEq, Repr

/-- The `renderMessage` dispatch: a truthy `msg.user` renders the user
bubble; a truthy `msg.server` renders a table for type `table`, a list
for type `list`, and otherwise the ReactMarkdown fallback; a message
with neither renders nothing.  A row rendered inside a `li` element is
its members concatenated, which is how React renders an array child. -/
def renderMessage (m : Msg) : Rendered :=
  if strTruthy m.user then .userBubble (m.user.getD "")
  else if contentTruthy m.server then
    if m.type = some "table" then
      match m.server with
      | some (.rows r) => .tableView r
      | _ => .crash
    else if m.type = some "list" then
      match m.server with
      | some (.items l) => .listView l
      | some (.rows r) => .listView (r.map String.join)
      | _ => .crash
    else
      .markdownView (m.server.getD (.str ""))
  else
    .nothing

/-! Helper lemmas shared by the claim theorems. -/

set_option maxRecDepth 8000

/-- A concrete authenticated state with an empty history and pending
input, used to instantiate the general theorems. -/
def demoState : ClientState :=
  { input := "hi", token := some "tok", isAuthenticated := true,
    localStorageToken := some "tok" }

lemma trimChars_eq_nil {l : List Char} (h : ∀ c ∈ l, isJsWs c = true) :
    trimChars l = [] := by
  unfold trimChars
  rw [List.dropWhile_eq_nil_iff.mpr h]
  simp

lemma jsTrim_of_ws {s : String} (h : ∀ c ∈ s.data, isJsWs c = true) :
    jsTrim s = "" := by
  unfold jsTrim
  rw [trimChars_eq_nil h]

lemma submitBlocked_of_ws {st : ClientState}
    (h : ∀ c ∈ st.input.data, isJsWs c = true) :
    submitBlocked st = true := by
  unfold submitBlocked
  rw [jsTrim_of_ws h]
  simp

lemma handleSubmit_blocked {st : ClientState} {outcome : FetchOutcome}
    (hb : submitBlocked st = true) :
    handleSubmit st outcome = (st, none) := by
  simp [handleSubmit, hb]

lemma handleSubmit_req (st : ClientState) (outcome : FetchOutcome)
    (hb : submitBlocked st = false) :
    (handleSubmit st outcome).2 =
      some { query := st.input, chat_history := st.chatHistory.map mapCtx } := by
  unfold handleSubmit
  simp only [hb, Bool.false_eq_true, if_false]
  cases outcome with
  | networkError => rfl
  | response status body =>
      by_cases h4 : status = 401
      · simp [h4]
      · by_cases hok : resOk status
        · cases body with
          | none => simp [h4, hok]
          | some data =>
              by_cases hs : data.success
              · simp [h4, hok, hs]
              · simp [h4, hok, hs]
        · simp [h4, hok]

lemma handleSubmit_extendsHistory (st : ClientState) (outcome : FetchOutcome) :
    ∃ t, (handleSubmit st outcome).1.chatHistory = st.chatHistory ++ t := by
  unfold handleSubmit
  by_cases hb : submitBlocked st = true
  · simp only [hb, if_true]
    exact ⟨[], by simp⟩
  · simp only [hb, Bool.false_eq_true, if_false]
    cases outcome with
    | networkError =>
        exact ⟨[{ user := some st.input }, connectionErrorMsg], by simp⟩
    | response status body =>
        by_cases h4 : status = 401
        · simp only [h4, if_true, if_pos rfl]
          exact ⟨[{ user := some st.input }, sessionExpiredMsg], by simp⟩
        · by_cases hok : resOk status
          · cases body with
            | none =>
                simp only [h4, if_false, hok]
                exact ⟨[{ user := some st.input }, connectionErrorMsg], by simp⟩
            | some data =>
                by_cases hs : data.success
                · simp only [h4, if_false, hok, hs]
                  exact ⟨[{ user := some st.input },
                          { server := data.result, type := some "markdown" }], by simp⟩
                · simp only [h4, if_false, hok, hs]
                  exact ⟨[{ user := some st.input },
                          { server := some (.str ("Error: " ++ jsOr data.error "Unknown error occurred")),
                            type := some "text" }], by simp⟩
          · simp only [h4, if_false, hok]
            exact ⟨[{ user := some st.input }, connectionErrorMsg], by simp⟩

lemma mapCtx_oneField (m : Msg)
    (h : strTruthy m.user = true ∨ contentTruthy m.server = true) :
    ctxOneField (mapCtx m) = true := by
  unfold mapCtx
  by_cases hu : strTruthy m.user = true
  · simp [hu, ctxOneField]
  · rcases h with h | h
    · exact absurd h hu
    · simp [hu, h, ctxOneField]

/-! Claim theorems. -/

/-- A success reply that declares type `table`; the client ignores the
declaration. -/
def c1Reply : QueryResponse :=
  { success := true, result := some (.str "ok"), rtype := some "table" }

/-- C1 (counterexample): a 2xx `success: true` reply declaring type
`table` still gets appended with type `markdown`, so the appended
message does not carry the type declared by the reply. -/
theorem C1_counterexample :
    (handleSubmit demoState (.response 200 (some c1Reply))).1.chatHistory =
      [{ user := some "hi" }, { server := some (.str "ok"), type := some "markdown" }] ∧
    c1Reply.rtype = some "table" ∧
    (some "markdown" : Option String) ≠ some "table" := by
  refine ⟨rfl, rfl, by simp⟩

/-- C1 (amended): for every 2xx response whose body parses with
`success: true`, `handleSubmit` appends exactly one server message after
the optimistic user echo, and that message's type is always `markdown`,
regardless of any type the reply declares. -/
theorem C1_theorem (st : ClientState) (status : Nat) (data : QueryResponse)
    (hb : submitBlocked st = false) (hok : resOk status = true)
    (hs : data.success = true) :
    (handleSubmit st (.response status (some data))).1.chatHistory =
      st.chatHistory ++
        [{ user := some st.input },
         { server := data.result, type := some "markdown" }] := by
  have h4 : status ≠ 401 := by
    intro h
    rw [h] at hok
    simp [resOk] at hok
  simp [handleSubmit, hb, h4, hok, hs]

/-- C1 (witness): the amended theorem applied at a concrete state and
reply. -/
theorem C1_witness :
    submitBlocked demoState = false ∧ resOk 200 = true ∧ c1Reply.success = true ∧
    (handleSubmit demoState (.response 200 (some c1Reply))).1.chatHistory =
      demoState.chatHistory ++
        [{ user := some demoState.input },
         { server := c1Reply.result, type := some "markdown" }] :=
  ⟨rfl, rfl, rfl, C1_theorem demoState 200 c1Reply rfl rfl rfl⟩

/-- C2 (counterexample): on an HTTP 500 response the appended message is
the fixed connection-error message, whose text does not mention the
status code 500. -/
theorem C2_counterexample :
    (handleSubmit demoState (.response 500 none)).1.chatHistory.getLast? =
      some connectionErrorMsg ∧
    ¬ ("500".data <:+: connectionErrorText.data) := by
  refine ⟨rfl, by decide⟩

/-- C2 (amended): for every non-2xx response other than 401, the message
appended to the chat history is the fixed connection-error message (the
same message as for a network failure); the status code appears only in
the thrown exception, never in the chat history. -/
theorem C2_theorem (st : ClientState) (status : Nat) (body : Option QueryResponse)
    (hb : submitBlocked st = false) (hok : resOk status = false)
    (h4 : status ≠ 401) :
    (handleSubmit st (.response status body)).1.chatHistory =
      st.chatHistory ++ [{ user := some st.input }, connectionErrorMsg] ∧
    (handleSubmit st (.response status body)).1.loading = false := by
  constructor
  · simp [handleSubmit, hb, h4, hok]
  · simp [handleSubmit, hb, h4, hok]

/-- C2 (witness): the amended theorem applied at a concrete state with a
500 response. -/
theorem C2_witness :
    submitBlocked demoState = false ∧ resOk 500 = false ∧ (500 : Nat) ≠ 401 ∧
    ((handleSubmit demoState (.response 500 none)).1.chatHistory =
      demoState.chatHistory ++ [{ user := some demoState.input }, connectionErrorMsg] ∧
     (handleSubmit demoState (.response 500 none)).1.loading = false) :=
  ⟨rfl, rfl, by simp, C2_theorem demoState 500 none rfl rfl (by simp)⟩

/-- An eleven-message in-memory history. -/
def elevenMessages : List Msg := List.replicate 11 { user := some "m" }

/-- A state holding eleven messages, more than the documented bound of
ten. -/
def c3State : ClientState :=
  { chatHistory := elevenMessages, input := "hi", token := some "tok" }

/-- C3 (counterexample): with eleven messages in memory, the context
sent to the backend has eleven elements, so it is not bounded by the
last 10 messages. -/
theorem C3_counterexample :
    (handleSubmit c3State .networkError).2 =
      some { query := "hi", chat_history := List.replicate 11 (.userMsg "m") } ∧
    ¬ (List.replicate 11 (CtxMsg.userMsg "m")).length ≤ 10 := by
  refine ⟨rfl, by decide⟩

/-- C3 (amended): for every submission that passes the guard, the
context sent alongside the query is the whole in-memory history mapped
element-wise — no truncation to the last 10 messages happens in the
client; the "last 10" text is only a UI annotation. -/
theorem C3_theorem (st : ClientState) (outcome : FetchOutcome)
    (hb : submitBlocked st = false) :
    (handleSubmit st outcome).2 =
      some { query := st.input, chat_history := st.chatHistory.map mapCtx } :=
  handleSubmit_req st outcome hb

/-- C3 (witness): the amended theorem applied at the eleven-message
state. -/
theorem C3_witness :
    submitBlocked c3State = false ∧
    (handleSubmit c3State .networkError).2 =
      some { query := c3State.input, chat_history := c3State.chatHistory.map mapCtx } :=
  ⟨rfl, C3_theorem c3State .networkError rfl⟩

/-- C4: a 401 response removes the token key from local storage, sets
the authentication state to false, and appends the session-expired
notice after the optimistic user echo. -/
theorem C4_theorem (st : ClientState) (body : Option QueryResponse)
    (hb : submitBlocked st = false) :
    (handleSubmit st (.response 401 body)).1.localStorageToken = none ∧
    (handleSubmit st (.response 401 body)).1.isAuthenticated = false ∧
    (handleSubmit st (.response 401 body)).1.chatHistory =
      st.chatHistory ++ [{ user := some st.input }, sessionExpiredMsg] := by
  refine ⟨?_, ?_, ?_⟩ <;> simp [handleSubmit, hb, handleLogout]

/-- C4 (witness): the theorem applied at a concrete authenticated
state. -/
theorem C4_witness :
    submitBlocked demoState = false ∧
    ((handleSubmit demoState (.response 401 none)).1.localStorageToken = none ∧
     (handleSubmit demoState (.response 401 none)).1.isAuthenticated = false ∧
     (handleSubmit demoState (.response 401 none)).1.chatHistory =
       demoState.chatHistory ++ [{ user := some demoState.input }, sessionExpiredMsg]) :=
  ⟨rfl, C4_theorem demoState none rfl⟩

/-- A server message whose content is the empty string: falsy in
JavaScript, so the context mapping passes it through unchanged. -/
def emptyServerMsg : Msg := { server := some (.str ""), type := some "markdown" }

/-- A state whose history holds the empty-content server message. -/
def c5State : ClientState :=
  { chatHistory := [emptyServerMsg], input := "hi", token := some "tok" }

/-- C5 (counterexample): a history element whose server content is the
empty string is passed through unchanged by the context mapping, so the
request element keeps its `type` field and is not of the one-field
shape. -/
theorem C5_counterexample :
    (handleSubmit c5State .networkError).2 =
      some { query := "hi", chat_history := [.passthrough emptyServerMsg] } ∧
    ctxOneField (.passthrough emptyServerMsg) = false := by
  refine ⟨rfl, rfl⟩

/-- C5 (amended): for every submission whose in-memory history contains
only messages with truthy user or server content, the `chat_history`
field of the request equals the in-memory history at submission time
mapped element-wise, and every element has exactly the one-field
`{user}`/`{server}` shape with no `type` field. -/
theorem C5_theorem (st : ClientState) (outcome : FetchOutcome)
    (hb : submitBlocked st = false)
    (htruthy : ∀ m ∈ st.chatHistory,
      strTruthy m.user = true ∨ contentTruthy m.server = true) :
    (handleSubmit st outcome).2 =
      some { query := st.input, chat_history := st.chatHistory.map mapCtx } ∧
    ∀ c ∈ st.chatHistory.map mapCtx, ctxOneField c = true := by
  refine ⟨handleSubmit_req st outcome hb, ?_⟩
  intro c hc
  simp only [List.mem_map] at hc
  obtain ⟨m, hm, rfl⟩ := hc
  exact mapCtx_oneField m (htruthy m hm)

/-- A state whose history holds one user and one server message, both
with non-empty content. -/
def twoMsgState : ClientState :=
  { chatHistory := [{ user := some "a" },
                    { server := some (.str "b"), type := some "markdown" }],
    input := "hi", token := some "tok" }

/-- C5 (witness): the amended theorem applied at a two-message
history. -/
theorem C5_witness :
    submitBlocked twoMsgState = false ∧
    (∀ m ∈ twoMsgState.chatHistory,
      strTruthy m.user = true ∨ contentTruthy m.server = true) ∧
    ((handleSubmit twoMsgState .networkError).2 =
      some { query := twoMsgState.input,
             chat_history := twoMsgState.chatHistory.map mapCtx } ∧
     ∀ c ∈ twoMsgState.chatHistory.map mapCtx, ctxOneField c = true) := by
  have h : ∀ m ∈ twoMsgState.chatHistory,
      strTruthy m.user = true ∨ contentTruthy m.server = true := by decide
  exact ⟨rfl, h, C5_theorem twoMsgState .networkError rfl h⟩

/-- C6: submitting an input that is empty or consists only of
whitespace triggers no network call and leaves the whole client state
unchanged. -/
theorem C6_theorem (st : ClientState) (outcome : FetchOutcome)
    (h : ∀ c ∈ st.input.data, isJsWs c = true) :
    handleSubmit st outcome = (st, none) :=
  handleSubmit_blocked (submitBlocked_of_ws h)

/-- A state whose pending input is whitespace only. -/
def wsState : ClientState :=
  { input := "  \t ", token := some "tok", isAuthenticated := true,
    localStorageToken := some "tok" }

/-- C6 (witness): the theorem applied at a whitespace-only input. -/
theorem C6_witness :
    (∀ c ∈ wsState.input.data, isJsWs c = true) ∧
    handleSubmit wsState .networkError = (wsState, none) := by
  have h : ∀ c ∈ wsState.input.data, isJsWs c = true := by decide
  exact ⟨h, C6_theorem wsState .networkError h⟩

/-- C7: a network exception during submission appends, after the
optimistic user echo, the fixed error message whose text contains
"Could not connect to server", and the loading flag is false
afterwards. -/
theorem C7_theorem (st : ClientState) (hb : submitBlocked st = false) :
    (handleSubmit st .networkError).1.chatHistory =
      st.chatHistory ++ [{ user := some st.input }, connectionErrorMsg] ∧
    (handleSubmit st .networkError).1.loading = false ∧
    ("Could not connect to server".data <:+: connectionErrorText.data) := by
  refine ⟨?_, ?_, by decide⟩ <;> simp [handleSubmit, hb]

/-- C7 (witness): the theorem applied at a concrete state. -/
theorem C7_witness :
    submitBlocked demoState = false ∧
    ((handleSubmit demoState .networkError).1.chatHistory =
       demoState.chatHistory ++ [{ user := some demoState.input }, connectionErrorMsg] ∧
     (handleSubmit demoState .networkError).1.loading = false ∧
     ("Could not connect to server".data <:+: connectionErrorText.data)) :=
  ⟨rfl, C7_theorem demoState rfl⟩

/-- A server message carrying an unrecognized type. -/
def weirdMsg : Msg := { server := some (.str "hello"), type := some "weird" }

/-- C8 (counterexample): a server message with the unrecognized type
`weird` renders through the markdown fallback, not nothing. -/
theorem C8_counterexample :
    renderMessage weirdMsg = .markdownView (.str "hello") ∧
    Rendered.markdownView (.str "hello") ≠ .nothing := by
  refine ⟨rfl, by simp⟩

/-- C8 (amended): a server message with truthy content and a type that
is neither `table` nor `list` renders through the ReactMarkdown
fallback; nothing is rendered only when a message has neither truthy
user nor truthy server content. -/
theorem C8_theorem (m : Msg) (hu : strTruthy m.user = false)
    (hs : contentTruthy m.server = true)
    (ht : m.type ≠ some "table") (hl : m.type ≠ some "list") :
    renderMessage m = .markdownView (m.server.getD (.str "")) := by
  simp [renderMessage, hu, hs, ht, hl]

/-- C8 (witness): the amended theorem applied at the unrecognized-type
message. -/
theorem C8_witness :
    strTruthy weirdMsg.user = false ∧
    contentTruthy weirdMsg.server = true ∧
    weirdMsg.type ≠ some "table" ∧
    weirdMsg.type ≠ some "list" ∧
    renderMessage weirdMsg = .markdownView (weirdMsg.server.getD (.str "")) := by
  refine ⟨rfl, rfl, by simp [weirdMsg], by simp [weirdMsg], ?_⟩
  exact C8_theorem weirdMsg rfl rfl (by simp [weirdMsg]) (by simp [weirdMsg])

/-- A state holding one message, for exercising `handleLogout`. -/
def oneMsgState : ClientState :=
  { chatHistory := [{ user := some "hello" }], isAuthenticated := true,
    token := some "tok", localStorageToken := some "tok" }

/-- C9 (counterexample): `handleLogout` resets a non-empty history to
the empty list, so the existing message is removed and the history is
not append-only across logout. -/
theorem C9_counterexample :
    (handleLogout oneMsgState).chatHistory = [] ∧
    oneMsgState.chatHistory ≠ [] ∧
    ¬ (oneMsgState.chatHistory <+: (handleLogout oneMsgState).chatHistory) := by
  refine ⟨rfl, by simp [oneMsgState], ?_⟩
  rintro ⟨t, ht⟩
  simp [oneMsgState, handleLogout] at ht

/-- C9 (amended): submission and response handling only append to the
history, and login leaves it unchanged; logout instead resets the
history to empty, removing all existing messages. -/
theorem C9_theorem (st : ClientState) (outcome : FetchOutcome)
    (tok : String) (vout : VerifyOutcome) :
    st.chatHistory <+: (handleSubmit st outcome).1.chatHistory ∧
    (handleLogin st tok vout).chatHistory = st.chatHistory ∧
    (handleLogout st).chatHistory = [] := by
  obtain ⟨t, ht⟩ := handleSubmit_extendsHistory st outcome
  refine ⟨⟨t, ht.symm⟩, ?_, rfl⟩
  cases vout <;> rfl

/-- C10: with no stored token, `handleSubmit` makes no network call and
leaves the whole client state unchanged, whatever the input. -/
theorem C10_theorem (st : ClientState) (outcome : FetchOutcome)
    (h : st.token = none) :
    handleSubmit st outcome = (st, none) := by
  have hb : submitBlocked st = true := by
    unfold submitBlocked
    rw [h]
    simp [strTruthy]
  exact handleSubmit_blocked hb

/-- A state with pending non-whitespace input but no token. -/
def noTokenState : ClientState := { input := "hello" }

/-- C10 (witness): the theorem applied at a tokenless state with
non-empty input. -/
theorem C10_witness :
    noTokenState.token = none ∧
    handleSubmit noTokenState .networkError = (noTokenState, none) :=
  ⟨rfl, C10_theorem noTokenState .networkError rfl⟩

end ChatApp
